import Mathlib

/-!
Shallow embedding of the PIC16F877A street-light controller
(`src/main.c` and the two concatenated files in `src/unnamed/part_000`:
"Auto Light Intensity.c" and "Auto Light extra.c") together with proofs
of the specified properties.

The embedding covers:
* the Timer2 interrupt handler maintaining the software clock
  (`seconds`/`minutes`/`hours`, 8-bit counters cascading 60/60/24);
* the main-loop decision logic (LDR day/night sample gated by the PIR
  motion sample driving the RC1 light line and a brightness level);
* the sunrise/sunset edge detector of "Auto Light extra.c"
  (`prevLDRState` latch, `sunrise_h/m` and `sunset_h/m` records);
* the LCD layer, modelled as the sequence of command/data/delay
  operations each routine emits on the bus (`LCD_Command`, `LCD_Data`
  and `__delay_ms` become constructors of `LCDOp`).
-/

namespace StreetLight

/-- The three clock counters of the source, `volatile unsigned char
seconds, minutes, hours`, gathered in one record. -/
structure ClockState where
  hours : Nat
  minutes : Nat
  seconds : Nat
deriving DecidableEq, Repr

/-- Boot values from the global initializers: `seconds = 0`,
`minutes = 0`, `hours = 22`. -/
def bootClock : ClockState := ⟨22, 0, 0⟩

/-- One Timer2 interrupt (the `TMR2IF` branch of `ISR`): `seconds++`
with `unsigned char` wraparound, cascading into minutes at 60, into
hours at 60, and wrapping hours at 24. -/
def tick (c : ClockState) : ClockState :=
  if 60 ≤ (c.seconds + 1) % 256 then
    if 60 ≤ (c.minutes + 1) % 256 then
      if 24 ≤ (c.hours + 1) % 256 then
        ⟨0, 0, 0⟩
      else
        ⟨(c.hours + 1) % 256, 0, 0⟩
    else
      ⟨c.hours, (c.minutes + 1) % 256, 0⟩
  else
    ⟨c.hours, c.minutes, (c.seconds + 1) % 256⟩

/-- `n` Timer2 interrupts starting from the 00:00:00 state. -/
def tickN : Nat → ClockState
  | 0 => ⟨0, 0, 0⟩
  | n + 1 => tick (tickN n)

/-- The clock invariant: a valid wall-clock triple. -/
def ValidClock (c : ClockState) : Prop :=
  c.hours < 24 ∧ c.minutes < 60 ∧ c.seconds < 60

theorem tick_closed_step (n : Nat) :
    tick ⟨n / 3600 % 24, n / 60 % 60, n % 60⟩ =
      ⟨(n + 1) / 3600 % 24, (n + 1) / 60 % 60, (n + 1) % 60⟩ := by
  simp only [tick]
  split_ifs <;> simp_all only [ClockState.mk.injEq] <;> omega

theorem tickN_closed_form (n : Nat) :
    tickN n = ⟨n / 3600 % 24, n / 60 % 60, n % 60⟩ := by
  induction n with
  | zero => rfl
  | succ k ih =>
    show tick (tickN k) = _
    rw [ih, tick_closed_step]

/-- C2: after exactly `n` Timer2 interrupts from 00:00:00 the clock
reads hours `n / 3600 mod 24`, minutes `n / 60 mod 60`, seconds
`n mod 60`; in particular 86400 interrupts return it to 00:00:00. -/
theorem clock_closed_form_and_day_rollover :
    (∀ n : Nat, tickN n = ⟨n / 3600 % 24, n / 60 % 60, n % 60⟩) ∧
    tickN 86400 = ⟨0, 0, 0⟩ := by
  refine ⟨tickN_closed_form, ?_⟩
  rw [tickN_closed_form]

/-- C4: the clock invariant holds at the boot value 22:00:00 and is
preserved by every Timer2 interrupt, with the full cascade wrapping
23:59:59 to 00:00:00. -/
theorem clock_valid_invariant :
    ValidClock bootClock ∧
    (∀ c, ValidClock c → ValidClock (tick c)) ∧
    tick ⟨23, 59, 59⟩ = ⟨0, 0, 0⟩ := by
  refine ⟨⟨by decide, by decide, by decide⟩, ?_, ?_⟩
  · intro c hc
    obtain ⟨h1, h2, h3⟩ := hc
    simp only [tick, ValidClock]
    split_ifs <;> refine ⟨?_, ?_, ?_⟩ <;> simp only <;> omega
  · simp only [tick]
    norm_num

theorem clock_valid_invariant_witness :
    ValidClock ⟨23, 59, 59⟩ ∧ ValidClock (tick ⟨23, 59, 59⟩) :=
  ⟨⟨by norm_num, by norm_num, by norm_num⟩,
   clock_valid_invariant.2.1 ⟨23, 59, 59⟩ ⟨by norm_num, by norm_num, by norm_num⟩⟩

/-- The light-control section of the main loop body: from the LDR
sample (`isNight`, high = dark) and the PIR sample (`motion`) compute
the `brightness` variable (`0` = OFF, `2` = FULL, as the source
comments it) and the level written to the `RC1` light line. -/
def lightControl (isNight motion : Bool) : Nat × Bool :=
  if isNight = false then
    (0, false)
  else if motion then
    (2, true)
  else
    (0, false)

/-- C1: the decision table is exhaustive — day yields OFF whatever the
motion sample, night without motion yields OFF, night with motion
yields FULL — and RC1 is driven high exactly when the level is FULL. -/
theorem light_decision_table :
    (∀ m : Bool, lightControl false m = (0, false)) ∧
    lightControl true false = (0, false) ∧
    lightControl true true = (2, true) ∧
    (∀ b m : Bool, (lightControl b m).2 = true ↔ (lightControl b m).1 = 2) := by
  decide

/-- Sunrise/sunset event kinds logged by "Auto Light extra.c". -/
inductive SunKind where
  | SUNRISE
  | SUNSET
deriving DecidableEq, Repr

/-- A logged sun event: its kind and the hour/minute the code copies
out of the clock counters when the edge is detected. -/
structure SunEvent where
  kind : SunKind
  h : Nat
  m : Nat
deriving DecidableEq, Repr

/-- Main-loop state of "Auto Light extra.c" touched by the edge
detector: the `prevLDRState` latch and the `sunrise_h/m`,
`sunset_h/m` records. -/
structure SysState where
  prev : Bool
  sunrise : Nat × Nat
  sunset : Nat × Nat
deriving DecidableEq, Repr

/-- State just before the while loop: `sunrise_h = sunrise_m =
sunset_h = sunset_m = 0` from the global initializers, and
`prevLDRState = PORTBbits.RB0`, the first LDR sample read after
`System_Init`. -/
def initSys (firstSample : Bool) : SysState :=
  ⟨firstSample, (0, 0), (0, 0)⟩

/-- The sunrise/sunset detection section of one loop iteration:
`prevLDRState == 1 && isNight == 0` records a sunrise,
`prevLDRState == 0 && isNight == 1` records a sunset, and
`prevLDRState = isNight` in every case.  Returns the new state and
the event shown by `Show_Sunrise_Sunset`, if any. -/
def cycle (st : SysState) (isNight : Bool) (clk : ClockState) :
    SysState × Option SunEvent :=
  if st.prev && !isNight then
    (⟨isNight, (clk.hours, clk.minutes), st.sunset⟩,
     some ⟨SunKind.SUNRISE, clk.hours, clk.minutes⟩)
  else if !st.prev && isNight then
    (⟨isNight, st.sunrise, (clk.hours, clk.minutes)⟩,
     some ⟨SunKind.SUNSET, clk.hours, clk.minutes⟩)
  else
    (⟨isNight, st.sunrise, st.sunset⟩, none)

/-- The events emitted by successive loop iterations over a list of
(LDR sample, clock value) pairs. -/
def runCycles (st : SysState) : List (Bool × ClockState) → List (Option SunEvent)
  | [] => []
  | (b, clk) :: rest =>
    ((cycle st b clk).2) :: runCycles (cycle st b clk).1 rest

/-- C3: on the classification sequence NIGHT, NIGHT, DAY, DAY, NIGHT
from a latch reading NIGHT, exactly two events are emitted — SUNRISE
at the third cycle and SUNSET at the fifth, each stamped with the
clock value of its cycle — and every cycle rewrites the latch with
the current classification. -/
theorem sun_edge_sequence :
    ∀ (k1 k2 k3 k4 k5 : ClockState) (r1 r2 : Nat × Nat),
      runCycles ⟨true, r1, r2⟩
          [(true, k1), (true, k2), (false, k3), (false, k4), (true, k5)] =
        [none, none, some ⟨SunKind.SUNRISE, k3.hours, k3.minutes⟩,
         none, some ⟨SunKind.SUNSET, k5.hours, k5.minutes⟩] ∧
      (∀ (st : SysState) (b : Bool) (clk : ClockState),
        ((cycle st b clk).1).prev = b) := by
  intro k1 k2 k3 k4 k5 r1 r2
  constructor
  · simp [runCycles, cycle]
  · intro st b clk
    simp only [cycle]
    split_ifs <;> rfl

/-- C5: the latch is seeded with the first real LDR sample taken after
startup (not a hardcoded constant), a first iteration whose sample
still equals that seed emits no event, and after any iteration the
latch equals that iteration's classification. -/
theorem latch_first_sample :
    ∀ (s : Bool) (clk : ClockState),
      (initSys s).prev = s ∧
      (cycle (initSys s) s clk).2 = none ∧
      (∀ (st : SysState) (b : Bool) (k : ClockState),
        ((cycle st b k).1).prev = b) := by
  intro s clk
  refine ⟨rfl, ?_, ?_⟩
  · cases s <;> simp [cycle, initSys]
  · intro st b k
    simp only [cycle]
    split_ifs <;> rfl

/-- The two successive `volatile` reads the sunrise branch performs,
`sunrise_h = hours; sunrise_m = minutes;`, with the Timer2 interrupt
optionally firing between them (GIE stays set for the whole loop, so
the ISR can preempt between any two instructions). -/
def recordSunriseInterleaved (c : ClockState) (tickBetween : Bool) : Nat × Nat :=
  let h := c.hours
  let c2 := if tickBetween then tick c else c
  (h, c2.minutes)

/-- C9 (refuted): with the clock at 00:59:59 and the interrupt firing
between the two reads, the code records 00:00 — matching neither the
pre-interrupt snapshot 00:59 nor the post-interrupt snapshot 01:00 —
so the main cycle's clock reads are not torn-free. -/
theorem torn_clock_read :
    recordSunriseInterleaved ⟨0, 59, 59⟩ true = (0, 0) ∧
    tick ⟨0, 59, 59⟩ = ⟨1, 0, 0⟩ ∧
    recordSunriseInterleaved ⟨0, 59, 59⟩ true ≠
      ((ClockState.mk 0 59 59).hours, (ClockState.mk 0 59 59).minutes) ∧
    recordSunriseInterleaved ⟨0, 59, 59⟩ true ≠
      ((tick ⟨0, 59, 59⟩).hours, (tick ⟨0, 59, 59⟩).minutes) := by
  refine ⟨by decide, by decide, by decide, by decide⟩

/-- One observable LCD bus action: a command byte (`LCD_Command`), a
data byte (`LCD_Data`), or a millisecond busy-wait (`__delay_ms`). -/
inductive LCDOp where
  | cmd : Nat → LCDOp
  | data : Nat → LCDOp
  | delay : Nat → LCDOp
deriving DecidableEq, Repr

/-- `LCD_SetCursor(row, col)` sends the command
`(row == 1 ? 0x80 : 0xC0) + col - 1`, truncated to the `unsigned
char` parameter of `LCD_Command`.  The source performs no range check
on either argument. -/
def LCD_SetCursor (row col : Nat) : Nat :=
  ((if row = 1 then 0x80 else 0xC0) + col - 1) % 256

/-- `LCD_String` sends each character of the string as one data
byte. -/
def LCD_String (s : String) : List LCDOp :=
  s.data.map (fun c => LCDOp.data c.toNat)

/-- `LCD_Clear` sends the clear command `0x01` then waits 2 ms. -/
def LCD_Clear : List LCDOp := [LCDOp.cmd 0x01, LCDOp.delay 2]

/-- `LCD_Print_Time(h, m)` sends `h/10 + '0'`, `h%10 + '0'`, `':'`,
`m/10 + '0'`, `m%10 + '0'` (character codes: `'0'` is 48, `':'` is
58). -/
def LCD_Print_Time (h m : Nat) : List LCDOp :=
  [LCDOp.data (h / 10 + 48), LCDOp.data (h % 10 + 48), LCDOp.data 58,
   LCDOp.data (m / 10 + 48), LCDOp.data (m % 10 + 48)]

/-- `Show_Sunrise_Sunset`: clear, row-1 label and sunrise record,
row-2 label and sunset record, 5000 ms dwell, clear. -/
def Show_Sunrise_Sunset (sunrise_h sunrise_m sunset_h sunset_m : Nat) : List LCDOp :=
  LCD_Clear ++
  [LCDOp.cmd (LCD_SetCursor 1 1)] ++
  LCD_String "Sunrise:" ++ LCD_Print_Time sunrise_h sunrise_m ++
  [LCDOp.cmd (LCD_SetCursor 2 1)] ++
  LCD_String "Sunset :" ++ LCD_Print_Time sunset_h sunset_m ++
  [LCDOp.delay 5000] ++ LCD_Clear

/-- `Update_Display(isNight, motion, level)` from `src/main.c`:
row 1 shows the day/night word, `M:` and the motion word; row 2 shows
`Light:` and `ON` when `level == 2`, else `OFF`. -/
def Update_Display (isNight motion : Bool) (level : Nat) : List LCDOp :=
  [LCDOp.cmd (LCD_SetCursor 1 1)] ++
  LCD_String (if isNight then "Night " else "Day   ") ++
  LCD_String "M:" ++
  LCD_String (if motion then "YES " else "NO  ") ++
  [LCDOp.cmd (LCD_SetCursor 2 1)] ++
  LCD_String "Light:" ++
  LCD_String (if level = 2 then "ON   " else "OFF  ")

/-- C6 (counterexample): `LCD_SetCursor` does not fail on out-of-range
arguments — the out-of-range row 3 silently issues the very command
of the valid call `LCD_SetCursor(2, 1)`, and the out-of-range column
17 on row 1 silently issues the ordinary command `0x90`. -/
theorem setCursor_silent_cex :
    LCD_SetCursor 3 1 = LCD_SetCursor 2 1 ∧ LCD_SetCursor 1 17 = 0x90 := by
  decide

/-- C6 (amended): `LCD_SetCursor` performs no range validation: within
range it issues base + col − 1 (base `0x80` for row 1, `0xC0` for
row 2), and any row other than 1 — valid or not — is treated exactly
as row 2. -/
theorem setCursor_no_range_check :
    (∀ col : Nat, 1 ≤ col → col ≤ 16 →
      LCD_SetCursor 1 col = 0x80 + col - 1 ∧
      LCD_SetCursor 2 col = 0xC0 + col - 1) ∧
    (∀ row col : Nat, row ≠ 1 → LCD_SetCursor row col = LCD_SetCursor 2 col) := by
  constructor
  · intro col h1 h2
    constructor <;> simp only [LCD_SetCursor] <;> norm_num <;> omega
  · intro row col h
    simp [LCD_SetCursor, h]

theorem setCursor_no_range_check_witness :
    LCD_SetCursor 1 5 = 0x80 + 5 - 1 ∧ LCD_SetCursor 3 1 = LCD_SetCursor 2 1 :=
  ⟨(setCursor_no_range_check.1 5 (by decide) (by decide)).1,
   setCursor_no_range_check.2 3 1 (by decide)⟩

/-- C7: `Update_Display` is a pure function of the sample and level —
two calls on the same arguments emit the same frame — and the frame
is row 1 = the day/night word, `M:` and the motion word, row 2 =
`Light:` and the on/off word. -/
theorem renderStatus_pure_content :
    ∀ (iN m : Bool) (lvl : Nat),
      Update_Display iN m lvl = Update_Display iN m lvl ∧
      Update_Display iN m lvl =
        LCDOp.cmd 0x80 ::
          (LCD_String ((if iN then "Night " else "Day   ") ++ "M:" ++
              (if m then "YES " else "NO  ")) ++
            (LCDOp.cmd 0xC0 ::
              LCD_String ("Light:" ++ (if lvl = 2 then "ON   " else "OFF  ")))) := by
  intro iN m lvl
  refine ⟨rfl, ?_⟩
  by_cases h : lvl = 2 <;>
    cases iN <;> cases m <;>
      simp [h, Update_Display, LCD_String, LCD_SetCursor]

/-- C8: for any in-range records, the sun-event overlay first clears
the screen, writes the sunrise record after its label at row 1 and
the sunset record after its label at row 2, dwells 5000 ms, and
clears again; and each record is printed as two decimal digit
characters per field — zero-padded, so the tens digit is always
present — separated by a colon, decoding back to the stored value. -/
theorem sun_overlay_render :
    ∀ h1 m1 h2 m2 : Nat, h1 < 24 → m1 < 60 → h2 < 24 → m2 < 60 →
      (Show_Sunrise_Sunset h1 m1 h2 m2 =
        LCD_Clear ++ [LCDOp.cmd 0x80] ++
        LCD_String "Sunrise:" ++ LCD_Print_Time h1 m1 ++
        [LCDOp.cmd 0xC0] ++
        LCD_String "Sunset :" ++ LCD_Print_Time h2 m2 ++
        [LCDOp.delay 5000] ++ LCD_Clear) ∧
      (∀ h m : Nat, h < 100 → m < 100 →
        ∃ a b c d : Nat,
          LCD_Print_Time h m =
            [LCDOp.data a, LCDOp.data b, LCDOp.data 58,
             LCDOp.data c, LCDOp.data d] ∧
          48 ≤ a ∧ a ≤ 57 ∧ 48 ≤ b ∧ b ≤ 57 ∧
          48 ≤ c ∧ c ≤ 57 ∧ 48 ≤ d ∧ d ≤ 57 ∧
          (a - 48) * 10 + (b - 48) = h ∧ (c - 48) * 10 + (d - 48) = m) := by
  intro h1 m1 h2 m2 hh1 hm1 hh2 hm2
  constructor
  · simp [Show_Sunrise_Sunset, LCD_SetCursor]
  · intro h m hh hm
    refine ⟨h / 10 + 48, h % 10 + 48, m / 10 + 48, m % 10 + 48, rfl,
      ?_, ?_, ?_, ?_, ?_, ?_, ?_, ?_, ?_, ?_⟩ <;> omega

theorem sun_overlay_render_witness :
    Show_Sunrise_Sunset 6 30 18 45 =
      LCD_Clear ++ [LCDOp.cmd 0x80] ++
      LCD_String "Sunrise:" ++ LCD_Print_Time 6 30 ++
      [LCDOp.cmd 0xC0] ++
      LCD_String "Sunset :" ++ LCD_Print_Time 18 45 ++
      [LCDOp.delay 5000] ++ LCD_Clear :=
  (sun_overlay_render 6 30 18 45 (by decide) (by decide) (by decide) (by decide)).1

theorem LCD_Print_Time_zero : LCD_Print_Time 0 0 = LCD_String "00:00" := by
  decide

/-- C10: both sun records boot as the zero value 00:00 (there is no
absent marker), a first edge of one kind leaves the record of the
other kind untouched at 00:00, and the overlay then renders that
never-recorded event as the characters `00:00` after its label. -/
theorem zero_boot_sun_records :
    ∀ (s : Bool) (clk : ClockState),
      (initSys s).sunrise = (0, 0) ∧
      (initSys s).sunset = (0, 0) ∧
      ((cycle (initSys false) true clk).1).sunrise = (0, 0) ∧
      ((cycle (initSys true) false clk).1).sunset = (0, 0) ∧
      Show_Sunrise_Sunset 0 0 clk.hours clk.minutes =
        LCD_Clear ++ [LCDOp.cmd 0x80] ++
        LCD_String "Sunrise:" ++ LCD_String "00:00" ++
        [LCDOp.cmd 0xC0] ++
        LCD_String "Sunset :" ++ LCD_Print_Time clk.hours clk.minutes ++
        [LCDOp.delay 5000] ++ LCD_Clear ∧
      Show_Sunrise_Sunset clk.hours clk.minutes 0 0 =
        LCD_Clear ++ [LCDOp.cmd 0x80] ++
        LCD_String "Sunrise:" ++ LCD_Print_Time clk.hours clk.minutes ++
        [LCDOp.cmd 0xC0] ++
        LCD_String "Sunset :" ++ LCD_String "00:00" ++
        [LCDOp.delay 5000] ++ LCD_Clear := by
  intro s clk
  refine ⟨rfl, rfl, ?_, ?_, ?_, ?_⟩
  · simp [cycle, initSys]
  · simp [cycle, initSys]
  · rw [← LCD_Print_Time_zero]
    simp [Show_Sunrise_Sunset, LCD_SetCursor]
  · rw [← LCD_Print_Time_zero]
    simp [Show_Sunrise_Sunset, LCD_SetCursor]

end StreetLight
